import Mathlib

/-!
Shallow embedding of the TelegramGroupHelperBot response-delivery logic.

Embedded from the source:
  bot/cwd_uploader.py        : upload_base64_image_to_cwd, upload_image_bytes_to_cwd,
                               upload_to_cwd_pw_paste
  tests/unit/test_send_response_logic.py : upload_service_logic

The dispatcher send_response (bot/handlers.py) is absent from the sources;
its model below is written from the specification (see the doc comments
starting with "Modelled from the spec:").

Python strings are modelled as Lean String (Python indexes and slices by
code point, as Lean's Char-list view does); bytes are lists of Nat; the
HTTP environment of each adapter is an explicit datatype enumerating every
behaviour the remote side (or the transport) can show, including the
exception-raising ones, so that the try/except structure of the source
becomes a total function into Option.
-/

/-- Python single-character lowering as performed by str.lower; faithful on
the ASCII range, which is the only range that can influence the comparisons
made by the code (no non-ASCII character lowercases onto a letter of
"cwd.pw"). -/
def pyCharLower (c : Char) : Char :=
  if 'A' ≤ c ∧ c ≤ 'Z' then Char.ofNat (c.toNat + 32) else c

/-- Python s.lower(). -/
def pyLower (s : String) : String := ⟨s.data.map pyCharLower⟩

/-- Python s.startswith(p). -/
def pyStartsWith (s p : String) : Bool := p.data.isPrefixOf s.data

/-- Python s.count(c) for a single character c. -/
def pyCountChar (s : String) (c : Char) : Nat := s.data.countP (fun a => a == c)

/-- Python s.split(sep, 1) unpacked into exactly two pieces, as in
`header, pure_base64 = base64_data.split(',', 1)`; none models the
ValueError raised (and later caught) when the separator does not occur. -/
def splitOnce (s : String) (c : Char) : Option (String × String) :=
  if s.data.contains c then
    some (⟨s.data.takeWhile (fun a => a != c)⟩, ⟨(s.data.dropWhile (fun a => a != c)).drop 1⟩)
  else none

/-- Python character slicing s[:n] for n ≥ 0. -/
def pyTake (s : String) (n : Nat) : String := ⟨s.data.take n⟩

/-- Worker for pyReplace: replaces every occurrence of pat (nonempty) by
rep, scanning left to right; fuel bounds the recursion and is taken to be
the length of the scanned list, which suffices because every step consumes
at least one character. -/
def replaceAllAux (pat rep : List Char) : Nat → List Char → List Char
  | _, [] => []
  | 0, l => l
  | fuel + 1, c :: rest =>
    if pat.isPrefixOf (c :: rest) then rep ++ replaceAllAux pat rep fuel ((c :: rest).drop pat.length)
    else c :: replaceAllAux pat rep fuel rest

/-- Python s.replace(pat, rep), replacing all occurrences. The code only
uses the nonempty pattern "data:"; the empty-pattern branch (where Python
interleaves rep everywhere) is never reached and returns s unchanged. -/
def pyReplace (s pat rep : String) : String :=
  if pat = "" then s
  else ⟨replaceAllAux pat.data rep.data s.data.length s.data⟩

/-- Python s.split(c) on every occurrence of a single-character separator,
keeping empty pieces, on the character-list view. -/
def pySplitChar (c : Char) : List Char → List (List Char)
  | [] => [[]]
  | a :: rest =>
    if a = c then [] :: pySplitChar c rest
    else
      match pySplitChar c rest with
      | [] => [[a]]
      | g :: gs => (a :: g) :: gs

/-- Python s.split(c) for a single-character separator. -/
def pySplit (s : String) (c : Char) : List String := (pySplitChar c s.data).map (fun l => ⟨l⟩)

/-- Value of one character of the standard base64 alphabet, none for a
character outside it. -/
def b64charVal (c : Char) : Option Nat :=
  if 'A' ≤ c ∧ c ≤ 'Z' then some (c.toNat - 65)
  else if 'a' ≤ c ∧ c ≤ 'z' then some (c.toNat - 97 + 26)
  else if '0' ≤ c ∧ c ≤ '9' then some (c.toNat - 48 + 52)
  else if c = '+' then some 62
  else if c = '/' then some 63
  else none

/-- Decoding loop of CPython binascii.a2b_base64 in non-strict mode (the
mode used by base64.b64decode): characters outside the alphabet are
skipped; a padding character closes the input once the current quad holds
at least two data characters and enough accumulated padding; an input
ending with a partial quad is an error (none), which the source catches.
Arguments: remaining input, position in the current quad (0-3), pending
high bits, consecutive padding count, output bytes accumulated in reverse. -/
def a2bLoop : List Char → Nat → Nat → Nat → List Nat → Option (List Nat)
  | [], quadPos, _, _, acc => if quadPos = 0 then some acc.reverse else none
  | c :: rest, quadPos, leftchar, pads, acc =>
    if c = '=' then
      if 2 ≤ quadPos then
        if 4 ≤ quadPos + (pads + 1) then some acc.reverse
        else a2bLoop rest quadPos leftchar (pads + 1) acc
      else a2bLoop rest quadPos leftchar pads acc
    else
      match b64charVal c with
      | none => a2bLoop rest quadPos leftchar pads acc
      | some v =>
        match quadPos with
        | 0 => a2bLoop rest 1 v 0 acc
        | 1 => a2bLoop rest 2 (v % 16) 0 ((leftchar * 4 + v / 16) :: acc)
        | 2 => a2bLoop rest 3 (v % 4) 0 ((leftchar * 16 + v / 4) :: acc)
        | _ => a2bLoop rest 0 0 0 ((leftchar * 64 + v) :: acc)

/-- Python base64.b64decode applied to a str: the argument is first encoded
as ASCII (a non-ASCII character raises, caught by the source, hence none),
then decoded by a2b_base64 in non-strict mode. -/
def b64decode (s : String) : Option (List Nat) :=
  if s.data.all (fun c => c.toNat < 128) then a2bLoop s.data 0 0 0 [] else none

/-- Characters of the standard base64 alphabet in value order. -/
def b64alphabet : List Char := "ABCDEFGHIJKLMNOPQRSTUVWXYZabcdefghijklmnopqrstuvwxyz0123456789+/".data

/-- Character of the standard base64 alphabet at a value. -/
def b64char (n : Nat) : Char := b64alphabet.getD n 'A'

/-- Encoding loop of Python base64.b64encode: three input bytes become four
alphabet characters; a final group of one or two bytes is padded with
one or two padding characters. -/
def b64encodeList : List Nat → List Char
  | [] => []
  | [a] => [b64char (a / 4), b64char (a % 4 * 16), '=', '=']
  | [a, b] => [b64char (a / 4), b64char (a % 4 * 16 + b / 16), b64char (b % 16 * 4), '=']
  | a :: b :: c :: rest =>
    b64char (a / 4) :: b64char (a % 4 * 16 + b / 16) :: b64char (b % 16 * 4 + c / 64) ::
      b64char (c % 64) :: b64encodeList rest

/-- Python base64.b64encode followed by decode('utf-8'), as used by
upload_image_bytes_to_cwd. -/
def b64encode (bytes : List Nat) : String := ⟨b64encodeList bytes⟩

/-- Content of one form-data field: the binary image bytes, or a text
value interpolated into the body. -/
inductive PartContent
  | bytes (b : List Nat)
  | text (s : String)
deriving DecidableEq

/-- One field of the multipart/form-data request body built by
upload_base64_image_to_cwd; the randomly generated boundary is wire
framing only and carries no field information, so it is not modelled. -/
structure FormPart where
  name : String
  filename : Option String
  contentType : Option String
  content : PartContent
deriving DecidableEq

/-- Behaviour of the image-upload HTTP POST environment: the transport can
raise (netError, covering timeouts and connection failures), the response
can be non-ok, its json() call can raise, or it yields a JSON object whose
success flag has the given truthiness and whose imageUrl entry is the given
string (none for a missing key). -/
inductive ImageHttp
  | netError
  | notOk (status : Nat)
  | okBadJson
  | okJson (success : Bool) (imageUrl : Option String)
deriving DecidableEq

/-- Observable behaviour of one call to the image-upload adapter: the
multipart body posted (none when validation failed before any network
call) and the returned value. -/
structure ImageUploadTrace where
  request : Option (List FormPart)
  result : Option String
deriving DecidableEq

/-- Multipart body built by upload_base64_image_to_cwd: fields image
(binary, filename upload.(extension)), api_key, ai_generated (the literal
"true"), model and prompt, where a missing (None) or empty model or prompt
is interpolated as the empty string via Python's `model or ""`. -/
def multipartBody (extension mime api_key : String) (binary : List Nat)
    (model prompt : Option String) : List FormPart :=
  [⟨"image", some ("upload." ++ extension), some mime, PartContent.bytes binary⟩,
   ⟨"api_key", none, none, PartContent.text api_key⟩,
   ⟨"ai_generated", none, none, PartContent.text "true"⟩,
   ⟨"model", none, none, PartContent.text (model.getD "")⟩,
   ⟨"prompt", none, none, PartContent.text (prompt.getD "")⟩]

/-- Normalisation of the extension derived from the MIME subtype: jpeg
becomes jpg. -/
def normExt (e : String) : String := if e = "jpeg" then "jpg" else e

/-- MIME type extracted from the data-URI header part:
`header.split(';')[0].replace('data:', '')`. -/
def mimeOf (hdr : String) : String :=
  pyReplace ⟨hdr.data.takeWhile (fun a => a != ';')⟩ "data:" ""

/-- Outcome of the validation phase of upload_base64_image_to_cwd. -/
inductive Validated
  | invalid
  | valid (mime extension : String) (binary : List Nat)
deriving DecidableEq

/-- Validation phase of upload_base64_image_to_cwd, exactly in source
order: data-URI literal check, split at the first comma (a missing comma
raises ValueError, caught by the enclosing handler), MIME extraction and
check, MIME shape check, extension normalisation and check, base64
decode. -/
def validate_image_data (base64_data : String) : Validated :=
  if pyStartsWith base64_data "data:image/" = false then Validated.invalid
  else
    match splitOnce base64_data ',' with
    | none => Validated.invalid
    | some (header, pure_base64) =>
      let mime_match := mimeOf header
      if pyStartsWith mime_match "image/" = false then Validated.invalid
      else if (pySplit mime_match '/').length ≠ 2 then Validated.invalid
      else
        let extension := normExt ((pySplit mime_match '/').getD 1 "")
        if ¬ (extension ∈ (["png", "jpg", "webp"] : List String)) then Validated.invalid
        else
          match b64decode pure_base64 with
          | none => Validated.invalid
          | some binary_data => Validated.valid mime_match extension binary_data

/-- Result of the HTTP phase of upload_base64_image_to_cwd: every failure
(transport error, non-ok status, unparsable JSON, falsy success flag,
missing or empty imageUrl) is caught or checked and yields none; note that
`if image_url:` in the source is a truthiness test, so an empty string is
treated as missing. -/
def httpResult (http : ImageHttp) : Option String :=
  match http with
  | ImageHttp.netError => none
  | ImageHttp.notOk _ => none
  | ImageHttp.okBadJson => none
  | ImageHttp.okJson success imageUrl =>
    if success then
      match imageUrl with
      | some u => if u = "" then none else some u
      | none => none
    else none

/-- Embedding of upload_base64_image_to_cwd (bot/cwd_uploader.py): validate
the data URI, and only on success build the multipart body and perform the
POST, whose outcome is supplied by the http environment. -/
def upload_base64_image_to_cwd (base64_data api_key : String)
    (model prompt : Option String) (http : ImageHttp) : ImageUploadTrace :=
  match validate_image_data base64_data with
  | Validated.invalid => ⟨none, none⟩
  | Validated.valid mime extension binary_data =>
    ⟨some (multipartBody extension mime api_key binary_data model prompt), httpResult http⟩

/-- Embedding of upload_image_bytes_to_cwd (bot/cwd_uploader.py): re-encode
the raw bytes into a data URI and delegate; the re-encoding of a bytes
value cannot raise, so the enclosing try adds no behaviour. -/
def upload_image_bytes_to_cwd (image_bytes : List Nat) (api_key mime_type : String)
    (model prompt : Option String) (http : ImageHttp) : ImageUploadTrace :=
  upload_base64_image_to_cwd ("data:" ++ mime_type ++ ";base64," ++ b64encode image_bytes)
    api_key model prompt http

/-- Behaviour of the paste HTTP POST environment: the transport can raise
(netError, also covering a raising text() read, which ends in the same
caught-exception path), or a response arrives with a status and an
optional Location header value. -/
inductive PasteWorld
  | netError
  | response (status : Nat) (location : Option String)
deriving DecidableEq

/-- Embedding of upload_to_cwd_pw_paste (bot/cwd_uploader.py): on status
301 or 302 the Location header is read and returned when truthy (note the
source's `if location:` has no else and the enclosing function falls
through to an implicit None for an absent or empty header); any other
status, and any raised error, yields None. -/
def upload_to_cwd_pw_paste (title content user_prompt debug_info raw_response : String)
    (w : PasteWorld) : Option String :=
  match w with
  | PasteWorld.netError => none
  | PasteWorld.response status location =>
    if status = 301 ∨ status = 302 then
      match location with
      | some l => if l = "" then none else some l
      | none => none
    else none

/-- Embedding of upload_service_logic
(tests/unit/test_send_response_logic.py), the extracted decision gate of
send_response. -/
def upload_service_logic (response_length line_count : Nat) (upload_service : String)
    (telegram_max_length : Nat) : String :=
  if line_count > 22 ∨ response_length > telegram_max_length then
    if pyLower upload_service = "cwd.pw" then "cwd.pw" else "telegra.ph"
  else "direct"

/-- Line count of a response as computed by the dispatcher:
`response.count('\n') + 1`. -/
def lineCount (response : String) : Nat := pyCountChar response '\n' + 1

/-- Outcome of one edit call on the message handle, as classified by the
dispatcher: success, an error classified as message-too-long (by the
Message_too_long substring match), or any other error. -/
inductive EditOutcome
  | ok
  | tooLong
  | otherError
deriving DecidableEq

/-- Which upload collaborator the dispatcher invoked. -/
inductive AdapterCall
  | paste
  | wiki
deriving DecidableEq

/-- Terminal delivery outcome of one dispatch. -/
inductive DeliveryOutcome
  | sentDirectly
  | sentAsLink (url : String)
  | sentPlainText
  | sentTruncated
  | sentErrorMessage
  | failedUnhandled
deriving DecidableEq

/-- Environment of one dispatch: what the paste adapter and the
wiki-publish collaborator would return, and the outcome of each successive
edit call on the message handle. -/
structure DispatchEnv where
  pasteResult : Option String
  wikiResult : Option String
  edits : List EditOutcome
deriving DecidableEq

/-- Observable behaviour of one dispatch: adapters invoked in order, texts
passed to successive edit calls, and the terminal outcome. -/
structure DispatchResult where
  adapterCalls : List AdapterCall
  editTexts : List String
  outcome : DeliveryOutcome
deriving DecidableEq

/-- Fixed suffix appended to a truncated response. -/
def truncSuffix : String := "...\n\n(Response was truncated due to length)"

/-- Truncated response: the first max_length - 44 characters followed by
the fixed suffix. -/
def truncatedText (response : String) (maxLength : Nat) : String :=
  pyTake response (maxLength - 44) ++ truncSuffix

/-- Fixed link message sent when an upload adapter returns a URL. -/
def linkMessage (url : String) : String :=
  "I have too much to say. Please view it here: " ++ url

/-- Fixed error message terminating the direct-path cascade. -/
def errorMessage : String := "Error: Failed to format response. Please try again."

/-- Outcome of the n-th edit call in a dispatch environment (ok when the
environment list is exhausted). -/
def editAt (env : DispatchEnv) (n : Nat) : EditOutcome := env.edits.getD n EditOutcome.ok

/-- Modelled from the spec: the Upload branch of send_response
(bot/handlers.py, absent from the sources). The adapter is the paste
adapter exactly when the lowered service name equals "cwd.pw", else the
wiki-publish collaborator; a returned URL is delivered by a single
terminal link edit; on adapter failure the raw response is sent as plain
text, retried once in truncated form when the edit fails as too long, and
abandoned on any other edit error. -/
def uploadBranch (response uploadService : String) (maxLength : Nat)
    (env : DispatchEnv) : DispatchResult :=
  let adapter := if pyLower uploadService = "cwd.pw" then AdapterCall.paste else AdapterCall.wiki
  let url := match adapter with
    | AdapterCall.paste => env.pasteResult
    | AdapterCall.wiki => env.wikiResult
  let rest : List String × DeliveryOutcome :=
    match url with
    | some u => ([linkMessage u], DeliveryOutcome.sentAsLink u)
    | none =>
      match editAt env 0 with
      | EditOutcome.ok => ([response], DeliveryOutcome.sentPlainText)
      | EditOutcome.tooLong =>
        ([response, truncatedText response maxLength], DeliveryOutcome.sentTruncated)
      | EditOutcome.otherError => ([response], DeliveryOutcome.failedUnhandled)
  ⟨[adapter], rest.1, rest.2⟩

/-- Modelled from the spec: the Direct branch of send_response
(bot/handlers.py, absent from the sources): edit with the raw response
(optionally formatted); on any failure retry once unformatted; on a second
failure emit the fixed error message. -/
def directBranch (response : String) (env : DispatchEnv) : DispatchResult :=
  let rest : List String × DeliveryOutcome :=
    match editAt env 0 with
    | EditOutcome.ok => ([response], DeliveryOutcome.sentDirectly)
    | _ =>
      match editAt env 1 with
      | EditOutcome.ok => ([response, response], DeliveryOutcome.sentPlainText)
      | _ => ([response, response, errorMessage], DeliveryOutcome.sentErrorMessage)
  ⟨[], rest.1, rest.2⟩

/-- Modelled from the spec: the decision gate of send_response
(bot/handlers.py, absent from the sources): Upload branch exactly when the
line count exceeds 22 or the character length exceeds the configured
maximum, Direct branch otherwise. -/
def send_response (response uploadService : String) (maxLength : Nat)
    (env : DispatchEnv) : DispatchResult :=
  if lineCount response > 22 ∨ response.length > maxLength then
    uploadBranch response uploadService maxLength env
  else
    directBranch response env

/-- Response of 23 newline characters: 24 lines but only 23 characters. -/
def nl23 : String := ⟨List.replicate 23 '\n'⟩

/-- Response of 21 newline characters: exactly 22 lines, 21 characters. -/
def nl21 : String := ⟨List.replicate 21 '\n'⟩

/-- Response of 45 identical characters on one line. -/
def x45 : String := ⟨List.replicate 45 'x'⟩

/-- Placeholder form part used as the default of a list lookup. -/
def emptyPart : FormPart := ⟨"", none, none, PartContent.text ""⟩

/-! Helper lemmas. -/

theorem data_append (a b : String) : (a ++ b).data = a.data ++ b.data := by
  cases a; cases b; rfl

theorem str_length_append (a b : String) : (a ++ b).length = a.length + b.length := by
  cases a; cases b; simp [String.length, String.append]

theorem pyTake_length (s : String) (n : Nat) : (pyTake s n).length = min n s.length := by
  simp only [pyTake, String.length, List.length_take]

theorem truncSuffix_length : truncSuffix.length = 43 := rfl

theorem uploadBranch_adapterCalls (r s : String) (M : Nat) (env : DispatchEnv) :
    (uploadBranch r s M env).adapterCalls =
      [if pyLower s = "cwd.pw" then AdapterCall.paste else AdapterCall.wiki] := rfl

theorem directBranch_adapterCalls (r : String) (env : DispatchEnv) :
    (directBranch r env).adapterCalls = [] := rfl

theorem upload_of_invalid (s k : String) (model prompt : Option String) (http : ImageHttp)
    (h : validate_image_data s = Validated.invalid) :
    upload_base64_image_to_cwd s k model prompt http = ⟨none, none⟩ := by
  simp [upload_base64_image_to_cwd, h]

theorem validate_invalid_of_head (s : String) (h : pyStartsWith s "data:image/" = false) :
    validate_image_data s = Validated.invalid := by
  simp [validate_image_data, h]

theorem validate_invalid_of_bad_ext (s hdr payload : String)
    (hsplit : splitOnce s ',' = some (hdr, payload))
    (hext : ¬ (normExt ((pySplit (mimeOf hdr) '/').getD 1 "") ∈ (["png", "jpg", "webp"] : List String))) :
    validate_image_data s = Validated.invalid := by
  simp only [validate_image_data, hsplit]
  split_ifs <;> rfl

theorem validate_invalid_of_bad_b64 (s hdr payload : String)
    (hsplit : splitOnce s ',' = some (hdr, payload)) (hdec : b64decode payload = none) :
    validate_image_data s = Validated.invalid := by
  simp only [validate_image_data, hsplit, hdec]
  split_ifs <;> rfl

/-! Claim theorems. -/

/-- C3 counterexample: at a 301 response whose Location header is present
but empty, the adapter returns none instead of the header value, because
the source's `if location:` is a truthiness test; so the claim that the
value is returned whenever the status is 301/302 and a Location header is
present fails at this input. -/
theorem C3_counterexample :
    upload_to_cwd_pw_paste "t" "c" "" "" "" (PasteWorld.response 301 (some "")) = none
    ∧ ¬ upload_to_cwd_pw_paste "t" "c" "" "" "" (PasteWorld.response 301 (some "")) = some "" := by
  decide

/-- C3 (amended): the paste adapter returns the Location value exactly for
a 301 or 302 response carrying a non-empty Location header; a 301/302
response whose Location header is absent or empty, any other status, and
any network error yield none without raising. -/
theorem C3_paste_location (t c up di rr : String) (status : Nat) (loc : Option String) :
    (∀ l, loc = some l → l ≠ "" → (status = 301 ∨ status = 302) →
      upload_to_cwd_pw_paste t c up di rr (PasteWorld.response status loc) = some l)
    ∧ (¬ (status = 301 ∨ status = 302) →
      upload_to_cwd_pw_paste t c up di rr (PasteWorld.response status loc) = none)
    ∧ (loc = none ∨ loc = some "" →
      upload_to_cwd_pw_paste t c up di rr (PasteWorld.response status loc) = none)
    ∧ upload_to_cwd_pw_paste t c up di rr PasteWorld.netError = none := by
  refine ⟨?_, ?_, ?_, rfl⟩
  · rintro l rfl hl hs
    simp [upload_to_cwd_pw_paste, hs, hl]
  · intro hs
    simp [upload_to_cwd_pw_paste, hs]
  · rintro (rfl | rfl) <;> simp [upload_to_cwd_pw_paste]

/-- C3 witness: a 302 with a non-empty Location yields that URL; a 200
yields none. -/
theorem C3_paste_location_witness :
    upload_to_cwd_pw_paste "t" "c" "" "" ""
      (PasteWorld.response 302 (some "https://cwd.pw/p/x")) = some "https://cwd.pw/p/x"
    ∧ upload_to_cwd_pw_paste "t" "c" "" "" "" (PasteWorld.response 200 (some "u")) = none := by
  refine ⟨(C3_paste_location "t" "c" "" "" "" 302 (some "https://cwd.pw/p/x")).1
      "https://cwd.pw/p/x" rfl (by decide) (Or.inr rfl),
    (C3_paste_location "t" "c" "" "" "" 200 (some "u")).2.1 (by decide)⟩

/-- C4: an input whose data-URI head is malformed, or whose normalised
MIME subtype is outside png/jpg/webp, or whose base64 payload fails to
decode, makes the image adapter return a no-URL failure with no network
request ever issued (request = none in the trace). -/
theorem C4_validation_failures (s k : String) (model prompt : Option String) (http : ImageHttp) :
    (pyStartsWith s "data:image/" = false →
      upload_base64_image_to_cwd s k model prompt http = ⟨none, none⟩)
    ∧ (∀ hdr payload, splitOnce s ',' = some (hdr, payload) →
      ¬ (normExt ((pySplit (mimeOf hdr) '/').getD 1 "") ∈ (["png", "jpg", "webp"] : List String)) →
      upload_base64_image_to_cwd s k model prompt http = ⟨none, none⟩)
    ∧ (∀ hdr payload, splitOnce s ',' = some (hdr, payload) → b64decode payload = none →
      upload_base64_image_to_cwd s k model prompt http = ⟨none, none⟩) := by
  refine ⟨?_, ?_, ?_⟩
  · intro h
    exact upload_of_invalid s k model prompt http (validate_invalid_of_head s h)
  · intro hdr payload hsplit hext
    exact upload_of_invalid s k model prompt http
      (validate_invalid_of_bad_ext s hdr payload hsplit hext)
  · intro hdr payload hsplit hdec
    exact upload_of_invalid s k model prompt http
      (validate_invalid_of_bad_b64 s hdr payload hsplit hdec)

/-- C4 witness: a missing data-URI head, an image/bmp subtype, and an
undecodable one-character base64 payload each yield the empty trace. -/
theorem C4_validation_failures_witness :
    upload_base64_image_to_cwd "not a data uri" "k" none none ImageHttp.netError = ⟨none, none⟩
    ∧ upload_base64_image_to_cwd "data:image/bmp;base64,AAAA" "k" none none
        ImageHttp.netError = ⟨none, none⟩
    ∧ upload_base64_image_to_cwd "data:image/png;base64,A" "k" none none
        ImageHttp.netError = ⟨none, none⟩ := by
  refine ⟨(C4_validation_failures "not a data uri" "k" none none ImageHttp.netError).1 (by decide),
    (C4_validation_failures "data:image/bmp;base64,AAAA" "k" none none ImageHttp.netError).2.1
      "data:image/bmp;base64" "AAAA" (by decide) (by decide),
    (C4_validation_failures "data:image/png;base64,A" "k" none none ImageHttp.netError).2.2
      "data:image/png;base64" "A" (by decide) (by decide)⟩

/-- C5: every adapter entry point is a total function into an optional
URL over an environment type that enumerates all raising behaviours of
the transport and of the response parsing, so every outcome is either a
URL or a no-URL result and no exception reaches the caller; a data URI
without a comma separator (whose tuple unpacking raises ValueError inside
the try) also yields the empty trace. -/
theorem C5_no_exception (s k mime t c up di rr : String) (b : List Nat)
    (model prompt : Option String) (ih : ImageHttp) (pw : PasteWorld) :
    ((upload_base64_image_to_cwd s k model prompt ih).result = none ∨
      ∃ u, (upload_base64_image_to_cwd s k model prompt ih).result = some u)
    ∧ ((upload_image_bytes_to_cwd b k mime model prompt ih).result = none ∨
      ∃ u, (upload_image_bytes_to_cwd b k mime model prompt ih).result = some u)
    ∧ (upload_to_cwd_pw_paste t c up di rr pw = none ∨
      ∃ u, upload_to_cwd_pw_paste t c up di rr pw = some u)
    ∧ (s.data.contains ',' = false →
      upload_base64_image_to_cwd s k model prompt ih = ⟨none, none⟩) := by
  refine ⟨?_, ?_, ?_, ?_⟩
  · cases h : (upload_base64_image_to_cwd s k model prompt ih).result with
    | none => exact Or.inl rfl
    | some u => exact Or.inr ⟨u, rfl⟩
  · cases h : (upload_image_bytes_to_cwd b k mime model prompt ih).result with
    | none => exact Or.inl rfl
    | some u => exact Or.inr ⟨u, rfl⟩
  · cases h : upload_to_cwd_pw_paste t c up di rr pw with
    | none => exact Or.inl rfl
    | some u => exact Or.inr ⟨u, rfl⟩
  · intro hc
    apply upload_of_invalid
    have hs : splitOnce s ',' = none := by
      simp only [splitOnce, hc, Bool.false_eq_true, if_false]
    simp [validate_image_data, hs]

/-- C5 witness: a data URI with a valid head but no comma yields the
empty trace. -/
theorem C5_no_exception_witness :
    upload_base64_image_to_cwd "data:image/png;base64" "k" none none
      ImageHttp.netError = ⟨none, none⟩ :=
  (C5_no_exception "data:image/png;base64" "k" "" "" "" "" "" "" [] none none
    ImageHttp.netError PasteWorld.netError).2.2.2 (by decide)

/-- C8: the byte-oriented entry point behaves identically (same request,
same result) to the base64 entry point applied to the data URI assembled
from the MIME type and the base64 encoding of the bytes, with the same
key and metadata; this is exactly how the source delegates. -/
theorem C8_bytes_delegation (b : List Nat) (k m : String) (model prompt : Option String)
    (http : ImageHttp) :
    upload_image_bytes_to_cwd b k m model prompt http =
      upload_base64_image_to_cwd ("data:" ++ m ++ ";base64," ++ b64encode b)
        k model prompt http := rfl

/-- C1: the Dispatcher takes the Upload branch (it invokes an upload
adapter, and the extracted gate upload_service_logic does not answer
"direct") exactly when the line count exceeds 22 or the character length
exceeds the configured maximum; at length equal to the maximum and line
count 22 the Direct path is taken with no adapter call (and a succeeding
first edit delivers directly), while length maximum+1 or line count 23
trigger the Upload branch. -/
theorem C1_upload_gate (response s : String) (M : Nat) (env : DispatchEnv) :
    ((send_response response s M env).adapterCalls ≠ [] ↔
      (lineCount response > 22 ∨ response.length > M))
    ∧ (upload_service_logic response.length (lineCount response) s M = "direct" ↔
      ¬ (lineCount response > 22 ∨ response.length > M))
    ∧ (response.length = M ∧ lineCount response = 22 →
      (send_response response s M env).adapterCalls = [] ∧
        (editAt env 0 = EditOutcome.ok →
          (send_response response s M env).outcome = DeliveryOutcome.sentDirectly))
    ∧ (response.length = M + 1 ∨ lineCount response = 23 →
      (send_response response s M env).adapterCalls ≠ []) := by
  refine ⟨?_, ?_, ?_, ?_⟩
  · by_cases h : lineCount response > 22 ∨ response.length > M
    · simp [send_response, h, uploadBranch_adapterCalls]
    · simp [send_response, h, directBranch_adapterCalls]
  · by_cases h : lineCount response > 22 ∨ response.length > M
    · simp only [upload_service_logic, if_pos h]
      by_cases hs : pyLower s = "cwd.pw" <;> simp [hs, h]
    · simp [upload_service_logic, h]
  · rintro ⟨h1, h2⟩
    have hcond : ¬ (lineCount response > 22 ∨ response.length > M) := by omega
    refine ⟨by simp [send_response, hcond, directBranch_adapterCalls], ?_⟩
    intro hedit
    simp [send_response, hcond, directBranch, hedit]
  · intro h
    have hcond : lineCount response > 22 ∨ response.length > M := by omega
    simp [send_response, hcond, uploadBranch_adapterCalls]

/-- C1 witness: a 1-character response over a maximum of 0 takes the
Upload branch; the 22-line, 21-character response over a maximum of 21
stays on the Direct path and is delivered directly. -/
theorem C1_upload_gate_witness :
    (send_response "a" "telegra.ph" 0 ⟨none, none, []⟩).adapterCalls ≠ []
    ∧ (send_response nl21 "telegra.ph" 21 ⟨none, none, []⟩).adapterCalls = []
    ∧ (send_response nl21 "telegra.ph" 21 ⟨none, none, []⟩).outcome =
        DeliveryOutcome.sentDirectly := by
  have h1 := (C1_upload_gate "a" "telegra.ph" 0 ⟨none, none, []⟩).2.2.2 (Or.inl (by decide))
  have h2 := (C1_upload_gate nl21 "telegra.ph" 21 ⟨none, none, []⟩).2.2.1 (by decide)
  exact ⟨h1, h2.1, h2.2 rfl⟩

/-- C2: on the Upload branch the paste adapter is invoked exactly when the
lowered service string equals "cwd.pw" with no whitespace trimming, so the
names " cwd.pw " and "invalid_service" route to the wiki-publish
collaborator; exactly one adapter is invoked, and the extracted gate
upload_service_logic answers "cwd.pw" under the same condition. -/
theorem C2_service_selection (response s : String) (M : Nat) (env : DispatchEnv)
    (h : lineCount response > 22 ∨ response.length > M) :
    ((send_response response s M env).adapterCalls = [AdapterCall.paste] ↔
      pyLower s = "cwd.pw")
    ∧ (send_response response s M env).adapterCalls.length = 1
    ∧ (send_response response " cwd.pw " M env).adapterCalls = [AdapterCall.wiki]
    ∧ (send_response response "invalid_service" M env).adapterCalls = [AdapterCall.wiki]
    ∧ (upload_service_logic response.length (lineCount response) s M = "cwd.pw" ↔
      pyLower s = "cwd.pw") := by
  refine ⟨?_, ?_, ?_, ?_, ?_⟩
  · by_cases hs : pyLower s = "cwd.pw" <;>
      simp [send_response, h, uploadBranch_adapterCalls, hs]
  · by_cases hs : pyLower s = "cwd.pw" <;>
      simp [send_response, h, uploadBranch_adapterCalls, hs]
  · have hws : ¬ pyLower " cwd.pw " = "cwd.pw" := by decide
    simp [send_response, h, uploadBranch_adapterCalls, hws]
  · have hin : ¬ pyLower "invalid_service" = "cwd.pw" := by decide
    simp [send_response, h, uploadBranch_adapterCalls, hin]
  · by_cases hs : pyLower s = "cwd.pw" <;> simp [upload_service_logic, h, hs]

/-- C2 witness: with a response long enough for the Upload branch, the
service name "CWD.PW" selects the paste adapter and " cwd.pw " routes to
the wiki-publish collaborator. -/
theorem C2_service_selection_witness :
    (send_response "ab" "CWD.PW" 1 ⟨none, none, []⟩).adapterCalls = [AdapterCall.paste]
    ∧ (send_response "ab" " cwd.pw " 1 ⟨none, none, []⟩).adapterCalls = [AdapterCall.wiki] := by
  have h := C2_service_selection "ab" "CWD.PW" 1 ⟨none, none, []⟩ (Or.inr (by decide))
  exact ⟨h.1.mpr (by decide), h.2.2.1⟩

/-- C6: whenever the image adapter issues a request, the multipart body
contains the ai_generated field with the literal text "true", whatever the
model and prompt arguments are (present, absent or empty). -/
theorem C6_ai_generated_literal (s k : String) (model prompt : Option String)
    (http : ImageHttp) (body : List FormPart)
    (h : (upload_base64_image_to_cwd s k model prompt http).request = some body) :
    FormPart.mk "ai_generated" none none (PartContent.text "true") ∈ body := by
  unfold upload_base64_image_to_cwd at h
  cases hv : validate_image_data s with
  | invalid => rw [hv] at h; simp at h
  | valid mime ext bin =>
    rw [hv] at h
    simp only [Option.some.injEq] at h
    rw [← h]
    simp [multipartBody]

/-- C6 witness: the request issued for a valid png data URI carries the
ai_generated field with value "true". -/
theorem C6_ai_generated_literal_witness :
    FormPart.mk "ai_generated" none none (PartContent.text "true") ∈
      multipartBody "png" "image/png" "k" [0, 0, 0] none none :=
  C6_ai_generated_literal "data:image/png;base64,AAAA" "k" none none ImageHttp.netError
    (multipartBody "png" "image/png" "k" [0, 0, 0] none none) (by decide)

theorem validate_jpeg (payload : String) (bin : List Nat)
    (hdec : b64decode payload = some bin) :
    validate_image_data ("data:image/jpeg;base64," ++ payload) =
      Validated.valid "image/jpeg" "jpg" bin := by
  have h : validate_image_data ("data:image/jpeg;base64," ++ payload) =
      match b64decode payload with
      | none => Validated.invalid
      | some binary_data => Validated.valid "image/jpeg" "jpg" binary_data := rfl
  rw [h, hdec]

/-- C7: a data URI with MIME type image/jpeg and any decodable payload is
accepted with the extension normalised to jpg, so the image part of the
request carries the filename upload.jpg; and every input accepted by the
validation has extension png, jpg or webp. -/
theorem C7_jpeg_normalized :
    (∀ payload k bin (model prompt : Option String) (http : ImageHttp),
      b64decode payload = some bin →
      (upload_base64_image_to_cwd ("data:image/jpeg;base64," ++ payload)
          k model prompt http).request =
        some (multipartBody "jpg" "image/jpeg" k bin model prompt)
      ∧ ((multipartBody "jpg" "image/jpeg" k bin model prompt).getD 0 emptyPart).filename =
        some "upload.jpg")
    ∧ (∀ s mime ext bin, validate_image_data s = Validated.valid mime ext bin →
      ext ∈ (["png", "jpg", "webp"] : List String)) := by
  constructor
  · intro payload k bin model prompt http hdec
    constructor
    · unfold upload_base64_image_to_cwd
      rw [validate_jpeg payload bin hdec]
    · rfl
  · intro s mime ext bin h
    simp only [validate_image_data] at h
    split_ifs at h with h1
    split at h
    · simp at h
    split_ifs at h with h2 h3 h4
    split at h
    · simp at h
    simp only [Validated.valid.injEq] at h
    obtain ⟨hm, he, hb⟩ := h
    rw [← he]
    exact h4

/-- C7 witness: the jpeg data URI with payload AAAA produces the request
whose image part is named upload.jpg. -/
theorem C7_jpeg_normalized_witness :
    (upload_base64_image_to_cwd ("data:image/jpeg;base64," ++ "AAAA") "k" none none
        ImageHttp.netError).request =
      some (multipartBody "jpg" "image/jpeg" "k" [0, 0, 0] none none)
    ∧ ((multipartBody "jpg" "image/jpeg" "k" [0, 0, 0] none none).getD 0 emptyPart).filename =
      some "upload.jpg" :=
  C7_jpeg_normalized.1 "AAAA" "k" [0, 0, 0] none none ImageHttp.netError (by decide)

/-- C9 counterexample: a response of 23 newline characters takes the
Upload branch (24 lines); with the adapter failing and the plain edit
failing as too long, the final edit is the truncated text ending in the
fixed suffix, but its length (66) is larger than the original's (23), so
the claimed strict length decrease fails. -/
theorem C9_counterexample :
    (send_response nl23 "cwd.pw" 4000 ⟨none, none, [EditOutcome.tooLong]⟩).editTexts =
      [nl23, truncatedText nl23 4000]
    ∧ truncSuffix.data <:+ (truncatedText nl23 4000).data
    ∧ ¬ ((truncatedText nl23 4000).length < nl23.length) := by
  refine ⟨by decide, ⟨(pyTake nl23 (4000 - 44)).data, (data_append _ _).symm⟩, by decide⟩

/-- C9 (amended): on the Upload branch, when both upload collaborators
fail and the plain-text edit fails as too long, the dispatch performs
exactly the plain edit followed by a final edit carrying the response
truncated to maxLength - 44 characters plus the fixed suffix; the
truncated text always ends with that suffix, and its length is strictly
below the original length whenever the configured maximum is at least 44
and the original is at least as long as the maximum (in particular
whenever the response exceeded the maximum). -/
theorem C9_truncation (response s : String) (M : Nat) (env : DispatchEnv)
    (hgate : lineCount response > 22 ∨ response.length > M)
    (hpaste : env.pasteResult = none) (hwiki : env.wikiResult = none)
    (hedit : editAt env 0 = EditOutcome.tooLong) :
    (send_response response s M env).editTexts = [response, truncatedText response M]
    ∧ (send_response response s M env).editTexts.getLast? = some (truncatedText response M)
    ∧ truncSuffix.data <:+ (truncatedText response M).data
    ∧ (44 ≤ M → M ≤ response.length →
      (truncatedText response M).length < response.length) := by
  have hmain : (send_response response s M env).editTexts =
      [response, truncatedText response M] := by
    simp only [send_response, if_pos hgate, uploadBranch]
    by_cases hs : pyLower s = "cwd.pw" <;> simp [hs, hpaste, hwiki, hedit]
  refine ⟨hmain, by rw [hmain]; rfl,
    ⟨(pyTake response (M - 44)).data, (data_append _ _).symm⟩, ?_⟩
  intro h44 hM
  have h1 : (truncatedText response M).length = min (M - 44) response.length + 43 := by
    simp only [truncatedText, str_length_append, pyTake_length, truncSuffix_length]
  rw [h1]
  omega

/-- C9 witness: a 45-character response over a maximum of 44 with a
failing paste upload and a too-long plain edit ends with the truncated
edit, which here is strictly shorter than the original. -/
theorem C9_truncation_witness :
    (send_response x45 "cwd.pw" 44 ⟨none, none, [EditOutcome.tooLong]⟩).editTexts =
      [x45, truncatedText x45 44]
    ∧ (truncatedText x45 44).length < x45.length := by
  have h := C9_truncation x45 "cwd.pw" 44 ⟨none, none, [EditOutcome.tooLong]⟩
    (Or.inr (by decide)) rfl rfl rfl
  exact ⟨h.1, h.2.2.2 (by decide) (by decide)⟩

/-- C10: every request issued by the image adapter consists of exactly the
five fields image, api_key, ai_generated, model and prompt in that order,
and a missing (None) model or prompt argument is serialised as an
empty-string field value, not omitted. -/
theorem C10_multipart_fields (s k : String) (model prompt : Option String) (http : ImageHttp)
    (mime ext : String) (bin : List Nat)
    (h : validate_image_data s = Validated.valid mime ext bin) :
    (upload_base64_image_to_cwd s k model prompt http).request =
      some [⟨"image", some ("upload." ++ ext), some mime, PartContent.bytes bin⟩,
            ⟨"api_key", none, none, PartContent.text k⟩,
            ⟨"ai_generated", none, none, PartContent.text "true"⟩,
            ⟨"model", none, none, PartContent.text (model.getD "")⟩,
            ⟨"prompt", none, none, PartContent.text (prompt.getD "")⟩]
    ∧ (((upload_base64_image_to_cwd s k model prompt http).request.getD []).map
        FormPart.name) = ["image", "api_key", "ai_generated", "model", "prompt"]
    ∧ (model = none →
      (⟨"model", none, none, PartContent.text ""⟩ : FormPart) ∈
        ((upload_base64_image_to_cwd s k model prompt http).request.getD [])) := by
  have hreq : (upload_base64_image_to_cwd s k model prompt http).request =
      some (multipartBody ext mime k bin model prompt) := by
    simp [upload_base64_image_to_cwd, h]
  refine ⟨by rw [hreq]; rfl, by rw [hreq]; rfl, ?_⟩
  rintro rfl
  rw [hreq]
  simp [multipartBody]

/-- C10 witness: the request for a valid png data URI with absent model
and prompt carries all five fields in order, with empty model and prompt
values. -/
theorem C10_multipart_fields_witness :
    (upload_base64_image_to_cwd "data:image/png;base64,AAAA" "k" none none
        ImageHttp.netError).request =
      some [⟨"image", some ("upload." ++ "png"), some "image/png", PartContent.bytes [0, 0, 0]⟩,
            ⟨"api_key", none, none, PartContent.text "k"⟩,
            ⟨"ai_generated", none, none, PartContent.text "true"⟩,
            ⟨"model", none, none, PartContent.text ((none : Option String).getD "")⟩,
            ⟨"prompt", none, none, PartContent.text ((none : Option String).getD "")⟩] :=
  (C10_multipart_fields "data:image/png;base64,AAAA" "k" none none ImageHttp.netError
    "image/png" "png" [0, 0, 0] (by decide)).1
